import Mathlib

/-!
Shallow embedding of the volunteer matching engine
(`src/services/volunteer_matching.py` together with the data model in
`src/domain/volunteering.py` and `src/domain/profiles.py`).

Modelling conventions:
* UUID identifiers (`OpportunityId`, `MatchRequestId`, `MatchId`, `UserId`,
  `EventId`) are modelled as natural numbers; fresh ids produced by
  `XxxId.new()` are drawn from a counter `nextId` threaded through the state
  (uuid4 never collides with an existing id, which the counter models
  exactly).
* `datetime` values are modelled as integers (time measured in days), so
  `datetime.now() - timedelta(days=d)` becomes `now - d`; `datetime.now()`
  is passed to each operation as an explicit `now` argument.
* Python floats are modelled as exact rationals (`0.8` becomes `4/5` etc.);
  all score arithmetic in the source is on small decimal literals.
* The in-memory dicts `_opportunities`, `_match_requests`, `_matches`
  (Python `dict[str, X]`, keys `str(id.value)`, insertion-ordered, unique
  keys) are modelled as insertion-ordered association lists `List (ℕ × X)`;
  `dict.values()` iteration order is list order, `dict[k] = v` for a fresh
  key is append, in-place mutation of a stored object is an update of the
  entry at its key, and `del dict[k]` removes the (unique) entry at `k`.
* `raise ValueError(msg)` is modelled as `Except.error e` with one error
  constructor per distinct message in the source; a normal return `x` is
  `Except.ok x` together with the post-state.
-/

namespace VolunteerMatching

/-- Embeds the `MatchStatus` enum from `src/domain/volunteering.py`. -/
inductive MatchStatus where
  | PENDING
  | ACCEPTED
  | REJECTED
  | EXPIRED
deriving DecidableEq, Repr

/-- Embeds `AvailabilityWindow` from `src/domain/profiles.py` (times as minutes). -/
structure AvailabilityWindow where
  weekday : ℕ
  start : ℕ
  stop : ℕ
deriving DecidableEq, Repr

/-- Embeds `Profile` from `src/domain/profiles.py` (fields the engine reads). -/
structure Profile where
  user_id : ℕ
  display_name : Option String := none
  phone : Option String := none
  skills : List String := []
  tags : List String := []
  availability : List AvailabilityWindow := []
deriving DecidableEq, Repr

/-- Embeds `Opportunity` from `src/domain/volunteering.py`. -/
structure Opportunity where
  id : ℕ
  event_id : ℕ
  title : String
  description : Option String := none
  required_skills : List String := []
  min_hours : Option ℚ := none
  max_slots : Option ℕ := none
deriving DecidableEq, Repr

/-- Embeds `MatchRequest` from `src/domain/volunteering.py`. -/
structure MatchRequest where
  id : ℕ
  user_id : ℕ
  opportunity_id : ℕ
  requested_at : ℤ
  status : MatchStatus := MatchStatus.PENDING
  score : Option ℚ := none
deriving DecidableEq, Repr

/-- Embeds `Match` from `src/domain/volunteering.py`. -/
structure Match where
  id : ℕ
  user_id : ℕ
  opportunity_id : ℕ
  created_at : ℤ
  status : MatchStatus
  score : Option ℚ := none
deriving DecidableEq, Repr

/-- Embeds the `MatchScore` dataclass from `src/services/volunteer_matching.py`. -/
structure MatchScore where
  total_score : ℚ
  skill_match_score : ℚ
  availability_score : ℚ
  preference_score : ℚ
  distance_score : ℚ
deriving DecidableEq, Repr

/-- Python's `str.lower()`: lowercases character by character (identical to
`String.map Char.toLower`, but stated on the underlying character list so
that it evaluates by kernel reduction). -/
def strLower (s : String) : String :=
  String.mk (s.data.map Char.toLower)

/-- Whether `needle` is an initial segment of `hay` (on character lists). -/
def charsStartWith : List Char → List Char → Bool
  | [], _ => true
  | _ :: _, [] => false
  | a :: as, b :: bs => decide (a = b) && charsStartWith as bs

/-- Whether `needle` occurs as a contiguous run inside `hay`. -/
def charsContain (needle : List Char) : List Char → Bool
  | [] => charsStartWith needle []
  | c :: rest => charsStartWith needle (c :: rest) || charsContain needle rest

/-- Python's substring test `needle in hay` on strings. -/
def strContains (hay needle : String) : Bool :=
  charsContain needle.toList hay.toList

/-- The lowercased skill set `set(skill.lower() for skill in skills)`. -/
def skillSet (skills : List String) : Finset String :=
  (skills.map strLower).toFinset

/-- Embeds `VolunteerMatchingService._calculate_skill_match_score`. -/
def calculate_skill_match_score (profile_skills required_skills : List String) : ℚ :=
  if required_skills = [] then 1
  else if profile_skills = [] then 0
  else
    ((skillSet profile_skills ∩ skillSet required_skills).card : ℚ) /
      ((skillSet required_skills).card : ℚ)

/-- Embeds `VolunteerMatchingService._calculate_preference_score`. -/
def calculate_preference_score (profile_tags : List String) (opportunity : Opportunity) : ℚ :=
  if profile_tags = [] then 1/2
  else
    let tag_set := (profile_tags.map strLower).toFinset
    let title := strLower opportunity.title
    let score1 : ℚ := if "experience" ∈ tag_set then 1/2 + 1/5 else 1/2
    let score2 : ℚ :=
      if "leadership" ∈ tag_set ∧ strContains title "lead" = true then score1 + 1/5 else score1
    let score3 : ℚ :=
      if "outdoors" ∈ tag_set ∧
          (["park", "cleanup", "outdoor"].any (fun w => strContains title w)) = true then
        score2 + 3/10
      else score2
    min score3 1

/-- Embeds `VolunteerMatchingService.calculate_match_score`. -/
def calculate_match_score (profile : Profile) (opportunity : Opportunity) : MatchScore :=
  let skill_score := calculate_skill_match_score profile.skills opportunity.required_skills
  let availability_score : ℚ := if profile.availability = [] then 3/10 else 4/5
  let preference_score := calculate_preference_score profile.tags opportunity
  let distance_score : ℚ := 7/10
  let total_score :=
    skill_score * (2/5) + availability_score * (3/10) +
      preference_score * (1/5) + distance_score * (1/10)
  { total_score := total_score
    skill_match_score := skill_score
    availability_score := availability_score
    preference_score := preference_score
    distance_score := distance_score }

/-- Lookup in an insertion-ordered dict (`d.get(k)`). -/
def dictGet {α : Type} : List (ℕ × α) → ℕ → Option α
  | [], _ => none
  | (k', v) :: rest, k => if k' = k then some v else dictGet rest k

/-- Gives `d.values()` in iteration (insertion) order. -/
def dictValues {α : Type} (d : List (ℕ × α)) : List α :=
  d.map Prod.snd

/-- In-place mutation of the object stored at key `k` (`d[k].field = ...`). -/
def dictUpdate {α : Type} : List (ℕ × α) → ℕ → (α → α) → List (ℕ × α)
  | [], _, _ => []
  | (k', v) :: rest, k, f =>
    if k' = k then (k', f v) :: dictUpdate rest k f
    else (k', v) :: dictUpdate rest k f

/-- Embeds `del d[k]`: removes the (first, with unique keys the only) entry at `k`. -/
def dictRemove {α : Type} : List (ℕ × α) → ℕ → List (ℕ × α)
  | [], _ => []
  | (k', v) :: rest, k => if k' = k then rest else (k', v) :: dictRemove rest k

/-- Mutates the first value satisfying `p` (loop with `break` over `.values()`). -/
def updateFirst (p : MatchRequest → Bool) (f : MatchRequest → MatchRequest) :
    List (ℕ × MatchRequest) → List (ℕ × MatchRequest)
  | [] => []
  | (k, v) :: rest =>
    if p v then (k, f v) :: rest else (k, v) :: updateFirst p f rest

/-- The three in-memory stores of `VolunteerMatchingService` plus the fresh-id
counter standing in for `uuid4`. -/
structure MatchingState where
  opportunities : List (ℕ × Opportunity)
  match_requests : List (ℕ × MatchRequest)
  matches' : List (ℕ × Match)
  nextId : ℕ
deriving DecidableEq, Repr

/-- One constructor per distinct `ValueError` message raised by the service:
`opportunityNotFound` is "Opportunity does not exist", `duplicateRequest` is
"User already has an active request for this opportunity",
`invalidStateTransition` is "Can only approve/reject pending match requests",
`opportunityGone` is "Opportunity no longer exists", and `capacityExceeded`
is "Opportunity is at maximum capacity". -/
inductive MatchingError where
  | opportunityNotFound
  | duplicateRequest
  | invalidStateTransition
  | opportunityGone
  | capacityExceeded
deriving DecidableEq, Repr

/-- Embeds the test `status in [MatchStatus.PENDING, MatchStatus.ACCEPTED]`. -/
def isActive (st : MatchStatus) : Bool :=
  decide (st = MatchStatus.PENDING ∨ st = MatchStatus.ACCEPTED)

/-- Embeds `VolunteerMatchingService._find_user_request_for_opportunity`: first
request (in insertion order) for the pair, regardless of status. -/
def find_user_request_for_opportunity (s : MatchingState)
    (user_id opportunity_id : ℕ) : Option MatchRequest :=
  (dictValues s.match_requests).find?
    (fun r => decide (r.user_id = user_id ∧ r.opportunity_id = opportunity_id))

/-- Embeds `VolunteerMatchingService._count_matches_for_opportunity`. -/
def count_matches_for_opportunity (s : MatchingState) (opportunity_id : ℕ) : ℕ :=
  ((dictValues s.matches').filter
    (fun m => decide (m.opportunity_id = opportunity_id ∧
      m.status = MatchStatus.ACCEPTED))).length

/-- Embeds `VolunteerMatchingService.create_match_request`. -/
def create_match_request (s : MatchingState) (user_id opportunity_id : ℕ)
    (now : ℤ) : Except MatchingError (MatchRequest × MatchingState) :=
  match dictGet s.opportunities opportunity_id with
  | none => Except.error MatchingError.opportunityNotFound
  | some _ =>
    let blocked :=
      match find_user_request_for_opportunity s user_id opportunity_id with
      | some existing => isActive existing.status
      | none => false
    if blocked then Except.error MatchingError.duplicateRequest
    else
      let rid := s.nextId
      let req : MatchRequest :=
        { id := rid, user_id := user_id, opportunity_id := opportunity_id
          requested_at := now, status := MatchStatus.PENDING, score := none }
      Except.ok (req,
        { s with match_requests := s.match_requests ++ [(rid, req)]
                 nextId := rid + 1 })

/-- The capacity guard of `approve_match_request`: Python's
`if opportunity.max_slots:` is truthy only for a non-`None`, non-zero value,
and the approval is blocked when the ACCEPTED-match count has reached it. -/
def capacity_blocked (s : MatchingState) (opportunity : Opportunity)
    (opportunity_id : ℕ) : Bool :=
  match opportunity.max_slots with
  | some n =>
    if n ≠ 0 then decide (n ≤ count_matches_for_opportunity s opportunity_id)
    else false
  | none => false

/-- Embeds `VolunteerMatchingService.approve_match_request`. Returns `ok none` when
the request id is absent (Python `return None`). -/
def approve_match_request (s : MatchingState) (request_id : ℕ) (now : ℤ) :
    Except MatchingError (Option Match × MatchingState) :=
  match dictGet s.match_requests request_id with
  | none => Except.ok (none, s)
  | some request =>
    if request.status ≠ MatchStatus.PENDING then
      Except.error MatchingError.invalidStateTransition
    else
      match dictGet s.opportunities request.opportunity_id with
      | none => Except.error MatchingError.opportunityGone
      | some opportunity =>
        if capacity_blocked s opportunity request.opportunity_id then
          Except.error MatchingError.capacityExceeded
        else
          let requests2 := dictUpdate s.match_requests request_id
            (fun r => { r with status := MatchStatus.ACCEPTED })
          let mid := s.nextId
          let m : Match :=
            { id := mid, user_id := request.user_id
              opportunity_id := request.opportunity_id, created_at := now
              status := MatchStatus.ACCEPTED, score := request.score }
          Except.ok (some m,
            { s with match_requests := requests2
                     matches' := s.matches' ++ [(mid, m)]
                     nextId := mid + 1 })

/-- Embeds `VolunteerMatchingService.reject_match_request`. -/
def reject_match_request (s : MatchingState) (request_id : ℕ) :
    Except MatchingError (Bool × MatchingState) :=
  match dictGet s.match_requests request_id with
  | none => Except.ok (false, s)
  | some request =>
    if request.status ≠ MatchStatus.PENDING then
      Except.error MatchingError.invalidStateTransition
    else
      let requests2 := dictUpdate s.match_requests request_id
        (fun r => { r with status := MatchStatus.REJECTED })
      Except.ok (true, { s with match_requests := requests2 })

/-- Embeds `VolunteerMatchingService.cancel_match`: deletes the match record and
flips the first ACCEPTED request for the same (user, opportunity) pair to
REJECTED. -/
def cancel_match (s : MatchingState) (match_id : ℕ) : Bool × MatchingState :=
  match dictGet s.matches' match_id with
  | none => (false, s)
  | some m =>
    let matches2 := dictRemove s.matches' match_id
    let requests2 := updateFirst
      (fun r => decide (r.user_id = m.user_id ∧
        r.opportunity_id = m.opportunity_id ∧ r.status = MatchStatus.ACCEPTED))
      (fun r => { r with status := MatchStatus.REJECTED })
      s.match_requests
    (true, { s with matches' := matches2, match_requests := requests2 })

/-- The predicate `request.status == PENDING and request.requested_at < cutoff`
with `cutoff = now - timedelta(days=days_old)`. -/
def is_stale (days_old : ℕ) (now : ℤ) (r : MatchRequest) : Bool :=
  decide (r.status = MatchStatus.PENDING ∧ r.requested_at < now - (days_old : ℤ))

/-- The loop body of `expire_old_requests` on one stored request: a stale
PENDING request is flipped to EXPIRED in place, anything else is untouched. -/
def expireEntry (days_old : ℕ) (now : ℤ) (p : ℕ × MatchRequest) : ℕ × MatchRequest :=
  if is_stale days_old now p.2 then (p.1, { p.2 with status := MatchStatus.EXPIRED })
  else p

/-- Embeds `VolunteerMatchingService.expire_old_requests`. -/
def expire_old_requests (s : MatchingState) (days_old : ℕ) (now : ℤ) :
    ℕ × MatchingState :=
  let expired_count := ((dictValues s.match_requests).filter (is_stale days_old now)).length
  let requests2 := s.match_requests.map (expireEntry days_old now)
  (expired_count, { s with match_requests := requests2 })

/-- One call in a sequence of `approve_match_request` invocations: a raised
error propagates to the caller and leaves the stores untouched. -/
def approveStep (s : MatchingState) (call : ℕ × ℤ) : MatchingState :=
  match approve_match_request s call.1 call.2 with
  | Except.ok (_, s2) => s2
  | Except.error _ => s

/-- Post-state of a service call whose Python form returns a value and
mutates `self`; an exception leaves the caller with the previous state. -/
def resultState {α : Type} (r : Except MatchingError (α × MatchingState))
    (s : MatchingState) : MatchingState :=
  match r with
  | Except.ok p => p.2
  | Except.error _ => s

/-- True when the call returned normally instead of raising. -/
def returnedOk {α : Type} (r : Except MatchingError α) : Bool :=
  match r with
  | Except.ok _ => true
  | Except.error _ => false

/-- Number of PENDING-or-ACCEPTED requests held by the pair. -/
def activeRequestCount (s : MatchingState) (user_id opportunity_id : ℕ) : ℕ :=
  ((dictValues s.match_requests).filter
    (fun r => decide (r.user_id = user_id ∧ r.opportunity_id = opportunity_id) &&
      isActive r.status)).length

/-- Unbounded sample opportunity used by the concrete scenarios. -/
def parkOpportunity : Opportunity :=
  { id := 0, event_id := 0, title := "Park Cleanup Volunteer" }

/-- Scenario start for the duplicate-guard run: one opportunity, no requests. -/
def dupS0 : MatchingState :=
  { opportunities := [(0, parkOpportunity)], match_requests := [], matches' := []
    nextId := 1 }

/-- State after `create_match_request(user 10, opportunity 0)` (request id 1). -/
def dupS1 : MatchingState := resultState (create_match_request dupS0 10 0 0) dupS0

/-- State after `reject_match_request(request 1)`. -/
def dupS2 : MatchingState := resultState (reject_match_request dupS1 1) dupS1

/-- State after a second `create_match_request` for the same pair (id 2). -/
def dupS3 : MatchingState := resultState (create_match_request dupS2 10 0 5) dupS2

/-- State after a third `create_match_request` for the same pair (id 3). -/
def dupS4 : MatchingState := resultState (create_match_request dupS3 10 0 6) dupS3

/-- Capacity-one opportunity used by the cancellation scenarios. -/
def slotOpportunity : Opportunity :=
  { id := 0, event_id := 0, title := "Food Distribution", max_slots := some 1 }

/-- Scenario state for cancellation: a full opportunity (one ACCEPTED match,
with its ACCEPTED request) and one further PENDING request. -/
def fullS : MatchingState :=
  { opportunities := [(0, slotOpportunity)]
    match_requests :=
      [(1, { id := 1, user_id := 10, opportunity_id := 0, requested_at := 0
             status := MatchStatus.ACCEPTED, score := none }),
       (2, { id := 2, user_id := 11, opportunity_id := 0, requested_at := 0
             status := MatchStatus.PENDING, score := none })]
    matches' :=
      [(3, { id := 3, user_id := 10, opportunity_id := 0, created_at := 0
             status := MatchStatus.ACCEPTED, score := none })]
    nextId := 4 }

/-- Scenario state with no stored match requests. -/
def emptyRequestsS : MatchingState :=
  { opportunities := [(0, parkOpportunity)], match_requests := [], matches' := []
    nextId := 1 }

/-- Profile with no availability windows used against the availability claim. -/
def bareProfile : Profile := { user_id := 1 }

/-- C1: the duplicate-request guard consults the oldest request for the pair,
whatever its status, so after create, reject, create for user 10 and
opportunity 0, a third create succeeds instead of raising the duplicate
error, leaving two PENDING requests for the pair. This run refutes the
one-active-request invariant. -/
theorem create_match_request_duplicate_guard_bypassed :
    returnedOk (create_match_request dupS3 10 0 6) = true ∧
      activeRequestCount dupS4 10 0 = 2 := by
  decide

/-- C3 counterexample: on a profile with zero availability windows the
availability component is 0.3, not 0.0 as claimed. -/
theorem availability_score_zero_windows_cex :
    (calculate_match_score bareProfile parkOpportunity).availability_score = 3/10 ∧
      ¬ ((3 : ℚ)/10 = 0) := by
  exact ⟨rfl, by norm_num⟩

/-- C3 amended: the availability component of `calculate_match_score` is the
flat value 0.3 when the profile has zero availability windows and 0.8
otherwise; the window-count versus minimum-hours heuristic does not appear
in the computation. -/
theorem availability_score_flat (profile : Profile) (opportunity : Opportunity) :
    (calculate_match_score profile opportunity).availability_score =
      if profile.availability = [] then 3/10 else 4/5 := rfl

/-- C4: cancelling an existing match returns true but hard-deletes the match
record from the store (the corresponding request is flipped to REJECTED
instead); the record does not persist as the claim and the repository's own
test `test_cancel_match` require. -/
theorem cancel_match_deletes_record :
    (cancel_match fullS 3).1 = true ∧
      dictGet (cancel_match fullS 3).2.matches' 3 = none ∧
      (cancel_match fullS 3).2.matches' = [] := by
  decide

/-- C5 counterexample: approving a request id with no stored MatchRequest
returns normally with `None` (`Except.ok none`) instead of raising a
request-not-found error. -/
theorem approve_missing_request_cex :
    approve_match_request emptyRequestsS 99 0 = Except.ok (none, emptyRequestsS) := rfl

/-- C5 amended: for every request id with no stored MatchRequest,
`approve_match_request` returns `None` without raising, and leaves all
requests and matches (the whole state) unchanged. -/
theorem approve_missing_request_returns_none (s : MatchingState)
    (request_id : ℕ) (now : ℤ) (h : dictGet s.match_requests request_id = none) :
    approve_match_request s request_id now = Except.ok (none, s) := by
  simp only [approve_match_request, h]

/-- Witness for C5 at a concrete state and request id. -/
theorem approve_missing_request_returns_none_witness :
    approve_match_request emptyRequestsS 42 0 = Except.ok (none, emptyRequestsS) :=
  approve_missing_request_returns_none emptyRequestsS 42 0 rfl

/-- An expired-or-untouched entry is never stale: either its status left
PENDING already, or it was not stale to begin with. -/
theorem expireEntry_not_stale (days_old : ℕ) (now : ℤ) (p : ℕ × MatchRequest) :
    is_stale days_old now (expireEntry days_old now p).2 = false := by
  by_cases h : is_stale days_old now p.2 = true
  · unfold expireEntry
    rw [if_pos h]
    simp [is_stale]
  · unfold expireEntry
    rw [if_neg h]
    simpa using h

/-- The expiry loop body is idempotent on a single entry. -/
theorem expireEntry_fixed (days_old : ℕ) (now : ℤ) (p : ℕ × MatchRequest) :
    expireEntry days_old now (expireEntry days_old now p) = expireEntry days_old now p := by
  have h := expireEntry_not_stale days_old now p
  unfold expireEntry at h ⊢
  simp [h]

/-- After one expiry pass, no stored request is stale any more. -/
theorem stale_filter_after_expiry (days_old : ℕ) (now : ℤ) :
    ∀ R : List (ℕ × MatchRequest),
      (dictValues (R.map (expireEntry days_old now))).filter (is_stale days_old now) = [] := by
  intro R
  induction R with
  | nil => rfl
  | cons p R ih =>
    simp only [List.map_cons, dictValues, List.filter_cons] at ih ⊢
    rw [expireEntry_not_stale]
    exact ih

/-- A second expiry pass over already-expired requests changes nothing. -/
theorem map_expireEntry_idem (days_old : ℕ) (now : ℤ) (R : List (ℕ × MatchRequest)) :
    (R.map (expireEntry days_old now)).map (expireEntry days_old now) =
      R.map (expireEntry days_old now) := by
  induction R with
  | nil => rfl
  | cons p R ih => simp [expireEntry_fixed, ih]

/-- C9: for a fixed cutoff (`now` and `days_old` held constant between the
two runs), `expire_old_requests` returns the number of PENDING requests
older than the cutoff, rewrites exactly those to EXPIRED, and a second run
transitions nothing and returns 0. -/
theorem expire_old_requests_idempotent (s : MatchingState) (days_old : ℕ) (now : ℤ) :
    (expire_old_requests s days_old now).1 =
      ((dictValues s.match_requests).filter (is_stale days_old now)).length
    ∧ (expire_old_requests s days_old now).2.match_requests =
        s.match_requests.map (expireEntry days_old now)
    ∧ expire_old_requests (expire_old_requests s days_old now).2 days_old now =
        (0, (expire_old_requests s days_old now).2) := by
  refine ⟨rfl, rfl, ?_⟩
  have h1 := stale_filter_after_expiry days_old now s.match_requests
  have h2 := map_expireEntry_idem days_old now s.match_requests
  simp [expire_old_requests, h1, h2]

/-- A nonempty skill list yields a nonempty lowercased skill set. -/
theorem skillSet_card_pos (l : List String) (h : l ≠ []) : 0 < (skillSet l).card := by
  cases l with
  | nil => exact absurd rfl h
  | cons a l =>
    apply Finset.card_pos.mpr
    exact ⟨strLower a, by simp [skillSet]⟩

/-- The skill component is never negative. -/
theorem calculate_skill_match_score_nonneg (ps rs : List String) :
    0 ≤ calculate_skill_match_score ps rs := by
  unfold calculate_skill_match_score
  split_ifs with h1 h2 <;> positivity

/-- The skill component never exceeds one. -/
theorem calculate_skill_match_score_le_one (ps rs : List String) :
    calculate_skill_match_score ps rs ≤ 1 := by
  unfold calculate_skill_match_score
  split_ifs with h1 h2
  · norm_num
  · norm_num
  · rw [div_le_one (by exact_mod_cast skillSet_card_pos rs h1)]
    exact_mod_cast Finset.card_le_card Finset.inter_subset_right

/-- The preference component always lies between the 0.5 baseline and 1. -/
theorem calculate_preference_score_bounds (tags : List String) (opportunity : Opportunity) :
    1/2 ≤ calculate_preference_score tags opportunity ∧
      calculate_preference_score tags opportunity ≤ 1 := by
  simp only [calculate_preference_score]
  constructor
  · split_ifs <;> (try simp only [le_min_iff]) <;> norm_num
  · split_ifs <;> (try simp only [min_le_iff]) <;> norm_num

/-- C6: every component of `calculate_match_score` (skill, availability,
preference, distance) lies in [0, 1], and so does the weighted total. -/
theorem match_score_components_bounded (profile : Profile) (opportunity : Opportunity) :
    (0 ≤ (calculate_match_score profile opportunity).total_score ∧
      (calculate_match_score profile opportunity).total_score ≤ 1) ∧
    (0 ≤ (calculate_match_score profile opportunity).skill_match_score ∧
      (calculate_match_score profile opportunity).skill_match_score ≤ 1) ∧
    (0 ≤ (calculate_match_score profile opportunity).availability_score ∧
      (calculate_match_score profile opportunity).availability_score ≤ 1) ∧
    (0 ≤ (calculate_match_score profile opportunity).preference_score ∧
      (calculate_match_score profile opportunity).preference_score ≤ 1) ∧
    (0 ≤ (calculate_match_score profile opportunity).distance_score ∧
      (calculate_match_score profile opportunity).distance_score ≤ 1) := by
  have hs1 := calculate_skill_match_score_nonneg profile.skills opportunity.required_skills
  have hs2 := calculate_skill_match_score_le_one profile.skills opportunity.required_skills
  obtain ⟨hp1, hp2⟩ := calculate_preference_score_bounds profile.tags opportunity
  have hav1 : (0:ℚ) ≤ (if profile.availability = [] then (3:ℚ)/10 else 4/5) := by
    split_ifs <;> norm_num
  have hav2 : (if profile.availability = [] then (3:ℚ)/10 else 4/5) ≤ 1 := by
    split_ifs <;> norm_num
  have htot : (calculate_match_score profile opportunity).total_score =
      calculate_skill_match_score profile.skills opportunity.required_skills * (2/5) +
        (if profile.availability = [] then (3:ℚ)/10 else 4/5) * (3/10) +
        calculate_preference_score profile.tags opportunity * (1/5) +
        (7/10) * (1/10) := rfl
  refine ⟨⟨?_, ?_⟩, ⟨hs1, hs2⟩, ⟨hav1, hav2⟩, ⟨le_trans (by norm_num) hp1, hp2⟩,
    by norm_num [calculate_match_score]⟩
  · rw [htot]; nlinarith
  · rw [htot]; nlinarith

/-- C10: the preference component of `calculate_match_score` never drops
below the no-tags baseline of 0.5 and never exceeds 1, for every profile
and opportunity. -/
theorem preference_component_at_least_half (profile : Profile) (opportunity : Opportunity) :
    1/2 ≤ (calculate_match_score profile opportunity).preference_score ∧
      (calculate_match_score profile opportunity).preference_score ≤ 1 :=
  calculate_preference_score_bounds profile.tags opportunity

/-- Appending skill lists unions their lowercased sets. -/
theorem skillSet_append (l1 l2 : List String) :
    skillSet (l1 ++ l2) = skillSet l1 ∪ skillSet l2 := by
  simp [skillSet, List.toFinset_append]

/-- Prepending one skill inserts its lowercased form. -/
theorem skillSet_cons (a : String) (l : List String) :
    skillSet (a :: l) = insert (strLower a) (skillSet l) := by
  simp [skillSet]

/-- C7: the skill component is monotone in the intersection: appending to the
required list a skill the volunteer already has (case-insensitively) cannot
decrease the score, and removing from the required list a skill the
volunteer lacks cannot decrease it. -/
theorem skill_score_monotone (ps rs : List String) (s : String) :
    (strLower s ∈ skillSet ps →
      calculate_skill_match_score ps rs ≤ calculate_skill_match_score ps (rs ++ [s]))
    ∧ (∀ l1 l2 : List String, rs = l1 ++ s :: l2 → strLower s ∉ skillSet ps →
      calculate_skill_match_score ps rs ≤ calculate_skill_match_score ps (l1 ++ l2)) := by
  constructor
  · intro hs
    have hps : ps ≠ [] := by
      rintro rfl
      simp [skillSet] at hs
    have hsingle : skillSet [s] = {strLower s} := by simp [skillSet]
    have hx : skillSet (rs ++ [s]) = insert (strLower s) (skillSet rs) := by
      rw [skillSet_append, hsingle, Finset.union_comm, ← Finset.insert_eq]
    by_cases hrs : rs = []
    · subst hrs
      rw [List.nil_append]
      have h1 : calculate_skill_match_score ps [] = 1 := by
        simp [calculate_skill_match_score]
      have h2 : calculate_skill_match_score ps [s] = 1 := by
        unfold calculate_skill_match_score
        rw [if_neg (by simp), if_neg hps, hsingle, Finset.inter_singleton_of_mem hs]
        simp
      rw [h1, h2]
    · have hrs' : rs ++ [s] ≠ [] := by simp
      have hn : (0:ℚ) < ((skillSet rs).card : ℚ) := by
        exact_mod_cast skillSet_card_pos rs hrs
      by_cases ht : strLower s ∈ skillSet rs
      · have heq : skillSet (rs ++ [s]) = skillSet rs := by
          rw [hx, Finset.insert_eq_self.mpr ht]
        unfold calculate_skill_match_score
        rw [if_neg hrs, if_neg hrs', if_neg hps, if_neg hps, heq]
      · have hcard : (skillSet (rs ++ [s])).card = (skillSet rs).card + 1 := by
          rw [hx, Finset.card_insert_of_not_mem ht]
        have hinterEq : skillSet ps ∩ skillSet (rs ++ [s]) =
            insert (strLower s) (skillSet ps ∩ skillSet rs) := by
          rw [hx, Finset.inter_insert_of_mem hs]
        have hnotInter : strLower s ∉ skillSet ps ∩ skillSet rs := by
          intro hmem
          exact ht (Finset.mem_inter.mp hmem).2
        have hcardInter : (skillSet ps ∩ skillSet (rs ++ [s])).card =
            (skillSet ps ∩ skillSet rs).card + 1 := by
          rw [hinterEq, Finset.card_insert_of_not_mem hnotInter]
        have hk : (skillSet ps ∩ skillSet rs).card ≤ (skillSet rs).card :=
          Finset.card_le_card Finset.inter_subset_right
        unfold calculate_skill_match_score
        rw [if_neg hrs, if_neg hrs', if_neg hps, if_neg hps, hcard, hcardInter]
        have hn1 : (0:ℚ) < (((skillSet rs).card + 1 : ℕ) : ℚ) := by
          exact_mod_cast Nat.succ_pos _
        rw [div_le_div_iff₀ hn hn1]
        push_cast
        have hk' : ((skillSet ps ∩ skillSet rs).card : ℚ) ≤ ((skillSet rs).card : ℚ) := by
          exact_mod_cast hk
        nlinarith [hk']
  · intro l1 l2 hreq hnot
    subst hreq
    by_cases h0 : l1 ++ l2 = []
    · rw [h0]
      have h1 : calculate_skill_match_score ps [] = 1 := by
        simp [calculate_skill_match_score]
      rw [h1]
      exact calculate_skill_match_score_le_one ps _
    · by_cases hps : ps = []
      · subst hps
        have hne : l1 ++ s :: l2 ≠ [] := by simp
        unfold calculate_skill_match_score
        rw [if_neg hne, if_pos rfl, if_neg h0, if_pos rfl]
      · have hins : skillSet (l1 ++ s :: l2) = insert (strLower s) (skillSet (l1 ++ l2)) := by
          rw [skillSet_append, skillSet_cons, skillSet_append, Finset.union_insert]
        have hne : l1 ++ s :: l2 ≠ [] := by simp
        have hn0 : (0:ℚ) < ((skillSet (l1 ++ l2)).card : ℚ) := by
          exact_mod_cast skillSet_card_pos _ h0
        by_cases ht : strLower s ∈ skillSet (l1 ++ l2)
        · have heq : skillSet (l1 ++ s :: l2) = skillSet (l1 ++ l2) := by
            rw [hins, Finset.insert_eq_self.mpr ht]
          unfold calculate_skill_match_score
          rw [if_neg hne, if_neg h0, if_neg hps, if_neg hps, heq]
        · have hcard : (skillSet (l1 ++ s :: l2)).card = (skillSet (l1 ++ l2)).card + 1 := by
            rw [hins, Finset.card_insert_of_not_mem ht]
          have hinter : skillSet ps ∩ skillSet (l1 ++ s :: l2) =
              skillSet ps ∩ skillSet (l1 ++ l2) := by
            rw [hins, Finset.inter_insert_of_not_mem hnot]
          unfold calculate_skill_match_score
          rw [if_neg hne, if_neg h0, if_neg hps, if_neg hps, hcard, hinter]
          have hn1 : (0:ℚ) < (((skillSet (l1 ++ l2)).card + 1 : ℕ) : ℚ) := by
            exact_mod_cast Nat.succ_pos _
          rw [div_le_div_iff₀ hn1 hn0]
          push_cast
          have hk0 : (0:ℚ) ≤ ((skillSet ps ∩ skillSet (l1 ++ l2)).card : ℚ) := by positivity
          nlinarith [hk0]

/-- Witness for C7: adding required skill "Python" (held by the volunteer)
does not decrease the score; removing required skill "Go" (not held) does
not decrease it. -/
theorem skill_score_monotone_witness :
    (calculate_skill_match_score ["Python"] ["Java"] ≤
      calculate_skill_match_score ["Python"] (["Java"] ++ ["Python"]))
    ∧ (calculate_skill_match_score ["Python"] (["Java"] ++ "Go" :: []) ≤
      calculate_skill_match_score ["Python"] (["Java"] ++ [])) :=
  ⟨(skill_score_monotone ["Python"] ["Java"] "Python").1 (by decide),
   (skill_score_monotone ["Python"] (["Java"] ++ "Go" :: []) "Go").2 ["Java"] [] rfl (by decide)⟩

/-- Shared helper: with a stored PENDING request whose capacity-bounded
opportunity is already full, approval raises the capacity error. -/
theorem approve_at_capacity (s : MatchingState) (request_id : ℕ) (now : ℤ)
    (req : MatchRequest) (oid N : ℕ) (opp : Opportunity)
    (hreq : dictGet s.match_requests request_id = some req)
    (hst : req.status = MatchStatus.PENDING)
    (hro : req.opportunity_id = oid)
    (hopp : dictGet s.opportunities oid = some opp)
    (hmax : opp.max_slots = some N) (hN : N ≠ 0)
    (hfull : N ≤ count_matches_for_opportunity s oid) :
    approve_match_request s request_id now =
      Except.error MatchingError.capacityExceeded := by
  have hcb : capacity_blocked s opp oid = true := by
    simp only [capacity_blocked, hmax]
    rw [if_pos hN]
    simpa using hfull
  simp only [approve_match_request, hreq, hro, hopp, hcb]
  rw [if_neg (by simp [hst])]
  simp

/-- One approval step keeps the opportunity store intact and never pushes the
ACCEPTED-match count of a capacity-N opportunity above N. -/
theorem approveStep_preserves (s : MatchingState) (oid : ℕ) (opp : Opportunity)
    (N : ℕ) (hopp : dictGet s.opportunities oid = some opp)
    (hmax : opp.max_slots = some N) (hN : N ≠ 0)
    (hle : count_matches_for_opportunity s oid ≤ N) (c : ℕ × ℤ) :
    (approveStep s c).opportunities = s.opportunities ∧
      count_matches_for_opportunity (approveStep s c) oid ≤ N := by
  have key : ∀ (r : Option Match) (s2 : MatchingState),
      approve_match_request s c.1 c.2 = Except.ok (r, s2) →
      s2.opportunities = s.opportunities ∧
        count_matches_for_opportunity s2 oid ≤ N := by
    intro r s2 happ
    unfold approve_match_request at happ
    split at happ
    · cases happ
      exact ⟨rfl, hle⟩
    · next req hreq =>
      split at happ
      · exact Except.noConfusion happ
      · next hst =>
        split at happ
        · exact Except.noConfusion happ
        · next opp2 hopp2 =>
          split at happ
          · exact Except.noConfusion happ
          · next hcb =>
            cases happ
            refine ⟨rfl, ?_⟩
            have hcnt : count_matches_for_opportunity
                { s with
                  match_requests := dictUpdate s.match_requests c.1
                    (fun r => { r with status := MatchStatus.ACCEPTED })
                  matches' := s.matches' ++
                    [(s.nextId,
                      { id := s.nextId, user_id := req.user_id
                        opportunity_id := req.opportunity_id, created_at := c.2
                        status := MatchStatus.ACCEPTED, score := req.score })]
                  nextId := s.nextId + 1 } oid =
                count_matches_for_opportunity s oid +
                  (if req.opportunity_id = oid then 1 else 0) := by
              simp only [count_matches_for_opportunity, dictValues, List.map_append,
                List.filter_append, List.length_append, List.map_cons, List.map_nil,
                List.filter_cons, List.filter_nil]
              split_ifs with h1 h2 h2 <;> simp_all
            rw [hcnt]
            by_cases hoid : req.opportunity_id = oid
            · rw [if_pos hoid]
              rw [hoid] at hopp2
              rw [hopp2] at hopp
              injection hopp with hoppeq
              subst hoppeq
              have hlt : count_matches_for_opportunity s oid < N := by
                simp only [capacity_blocked, hmax, hoid] at hcb
                rw [if_pos hN] at hcb
                simp only [decide_eq_true_eq] at hcb
                omega
              omega
            · rw [if_neg hoid]
              simpa using hle
  unfold approveStep
  cases happ : approve_match_request s c.1 c.2 with
  | error e => exact ⟨rfl, hle⟩
  | ok p => exact key p.1 p.2 (by rw [happ])

/-- Folding any list of approval calls preserves the capacity bound. -/
theorem foldl_approve_le (oid : ℕ) (opp : Opportunity) (N : ℕ)
    (hmax : opp.max_slots = some N) (hN : N ≠ 0) :
    ∀ (calls : List (ℕ × ℤ)) (s : MatchingState),
      dictGet s.opportunities oid = some opp →
      count_matches_for_opportunity s oid ≤ N →
      count_matches_for_opportunity (calls.foldl approveStep s) oid ≤ N := by
  intro calls
  induction calls with
  | nil => intro s _ hle; exact hle
  | cons c calls ih =>
    intro s hopp hle
    obtain ⟨h1, h2⟩ := approveStep_preserves s oid opp N hopp hmax hN hle c
    exact ih (approveStep s c) (by rw [h1]; exact hopp) h2

/-- C2: for an opportunity stored with `max_slots = N` (N positive) whose
ACCEPTED-match count is within bound, no sequence of
`approve_match_request` calls (errors propagating, no cancellations) can
push the count above N, and an approval of a PENDING request for it
attempted when the count has already reached N raises the capacity error
instead of creating a match. -/
theorem approve_capacity_invariant (s : MatchingState) (oid N : ℕ)
    (opp : Opportunity)
    (hopp : dictGet s.opportunities oid = some opp)
    (hmax : opp.max_slots = some N) (hN : 0 < N)
    (hle : count_matches_for_opportunity s oid ≤ N) :
    (∀ calls : List (ℕ × ℤ),
      count_matches_for_opportunity (calls.foldl approveStep s) oid ≤ N)
    ∧ (∀ (request_id : ℕ) (now : ℤ) (req : MatchRequest),
        dictGet s.match_requests request_id = some req →
        req.status = MatchStatus.PENDING →
        req.opportunity_id = oid →
        N ≤ count_matches_for_opportunity s oid →
        approve_match_request s request_id now =
          Except.error MatchingError.capacityExceeded) := by
  constructor
  · intro calls
    exact foldl_approve_le oid opp N hmax (Nat.pos_iff_ne_zero.mp hN) calls s hopp hle
  · intro rid now req hreq hst hro hfull
    exact approve_at_capacity s rid now req oid N opp hreq hst hro hopp hmax
      (Nat.pos_iff_ne_zero.mp hN) hfull

/-- Witness for C2: in the concrete full state (capacity 1, one ACCEPTED
match), approving the stored PENDING request raises the capacity error. -/
theorem approve_capacity_invariant_witness :
    approve_match_request fullS 2 0 = Except.error MatchingError.capacityExceeded :=
  (approve_capacity_invariant fullS 0 1 slotOpportunity rfl rfl (by decide)
      (by decide)).2 2 0
    { id := 2, user_id := 11, opportunity_id := 0, requested_at := 0
      status := MatchStatus.PENDING, score := none } rfl rfl rfl (by decide)

/-- Updating the first request satisfying `p` leaves the entry at key `k`
alone whenever that entry does not satisfy `p`. -/
theorem dictGet_updateFirst (p : MatchRequest → Bool) (f : MatchRequest → MatchRequest)
    (d : List (ℕ × MatchRequest)) (k : ℕ) (v : MatchRequest)
    (hget : dictGet d k = some v) (hp : p v = false) :
    dictGet (updateFirst p f d) k = some v := by
  induction d with
  | nil => cases hget
  | cons e d ih =>
    obtain ⟨ek, ev⟩ := e
    unfold dictGet at hget
    unfold updateFirst
    by_cases hk : ek = k
    · rw [if_pos hk] at hget
      injection hget with hv
      subst hv
      rw [if_neg (by simp [hp])]
      unfold dictGet
      rw [if_pos hk]
    · rw [if_neg hk] at hget
      by_cases hpe : p ev = true
      · rw [if_pos hpe]
        unfold dictGet
        rw [if_neg hk]
        exact hget
      · rw [if_neg hpe]
        unfold dictGet
        rw [if_neg hk]
        exact ih hget

/-- Removing the entry stored at key `k` drops exactly that entry's
contribution from a filtered count over the values. -/
theorem filter_length_dictRemove (d : List (ℕ × Match)) (k : ℕ) (m : Match)
    (q : Match → Bool) (hget : dictGet d k = some m) :
    ((dictValues d).filter q).length =
      ((dictValues (dictRemove d k)).filter q).length + (if q m then 1 else 0) := by
  induction d with
  | nil => cases hget
  | cons e d ih =>
    obtain ⟨ek, ev⟩ := e
    unfold dictGet at hget
    unfold dictRemove
    by_cases hk : ek = k
    · rw [if_pos hk] at hget ⊢
      injection hget with hv
      subst hv
      simp only [dictValues, List.map_cons, List.filter_cons]
      by_cases hq : q ev = true
      · simp [hq]
      · simp [hq]
    · rw [if_neg hk] at hget ⊢
      have hrec := ih hget
      simp only [dictValues, List.map_cons, List.filter_cons]
      by_cases hq : q ev = true
      · simp only [hq, if_true, List.length_cons]
        simp only [dictValues] at hrec
        omega
      · simp only [hq]
        simpa [dictValues] using hrec

/-- C8: with a capacity-N opportunity already holding N ACCEPTED matches (so
approval of the stored PENDING request is blocked with the capacity error),
cancelling one of its matches succeeds and a subsequent approval of that
PENDING request succeeds, producing a match: cancellation frees exactly the
one slot needed. -/
theorem cancel_frees_one_slot (s : MatchingState) (oid N mid rid : ℕ)
    (opp : Opportunity) (m : Match) (req : MatchRequest) (now : ℤ)
    (hopp : dictGet s.opportunities oid = some opp)
    (hmax : opp.max_slots = some N) (hN : 0 < N)
    (hm : dictGet s.matches' mid = some m)
    (hmo : m.opportunity_id = oid) (hms : m.status = MatchStatus.ACCEPTED)
    (hr : dictGet s.match_requests rid = some req)
    (hrs : req.status = MatchStatus.PENDING) (hro : req.opportunity_id = oid)
    (hfull : count_matches_for_opportunity s oid = N) :
    approve_match_request s rid now = Except.error MatchingError.capacityExceeded
    ∧ (cancel_match s mid).1 = true
    ∧ ∃ (m2 : Match) (s2 : MatchingState),
        approve_match_request (cancel_match s mid).2 rid now =
          Except.ok (some m2, s2) := by
  have hNne : N ≠ 0 := Nat.pos_iff_ne_zero.mp hN
  refine ⟨approve_at_capacity s rid now req oid N opp hr hrs hro hopp hmax hNne
    (le_of_eq hfull.symm), by simp [cancel_match, hm], ?_⟩
  have hc : (cancel_match s mid).2 =
      { s with matches' := dictRemove s.matches' mid
               match_requests := updateFirst
                 (fun r => decide (r.user_id = m.user_id ∧
                   r.opportunity_id = m.opportunity_id ∧
                   r.status = MatchStatus.ACCEPTED))
                 (fun r => { r with status := MatchStatus.REJECTED })
                 s.match_requests } := by
    simp [cancel_match, hm]
  have hreq2 : dictGet (cancel_match s mid).2.match_requests rid = some req := by
    rw [hc]
    exact dictGet_updateFirst _ _ s.match_requests rid req hr (by simp [hrs])
  have hcnt2 : count_matches_for_opportunity (cancel_match s mid).2 oid + 1 = N := by
    have hdec := filter_length_dictRemove s.matches' mid m
      (fun mm => decide (mm.opportunity_id = oid ∧ mm.status = MatchStatus.ACCEPTED)) hm
    have hqm : decide (m.opportunity_id = oid ∧ m.status = MatchStatus.ACCEPTED) = true := by
      simp [hmo, hms]
    simp only [hqm, if_true, eq_self_iff_true] at hdec
    have e2 : count_matches_for_opportunity (cancel_match s mid).2 oid =
        ((dictValues (dictRemove s.matches' mid)).filter
          (fun mm => decide (mm.opportunity_id = oid ∧
            mm.status = MatchStatus.ACCEPTED))).length := by
      rw [hc]
      rfl
    have e1 : count_matches_for_opportunity s oid =
        ((dictValues s.matches').filter
          (fun mm => decide (mm.opportunity_id = oid ∧
            mm.status = MatchStatus.ACCEPTED))).length := rfl
    rw [e1, hdec] at hfull
    rw [e2]
    omega
  have hcb2 : capacity_blocked (cancel_match s mid).2 opp oid = false := by
    simp only [capacity_blocked, hmax]
    rw [if_pos hNne]
    rw [decide_eq_false_iff_not]
    omega
  have hopp2 : dictGet (cancel_match s mid).2.opportunities oid = some opp := by
    rw [hc]
    exact hopp
  simp only [approve_match_request, hreq2, hro, hopp2]
  rw [if_neg (by simp [hrs]), if_neg (by simp [hcb2])]
  exact ⟨_, _, rfl⟩

/-- Witness for C8 on the concrete full state: the pending request is
blocked, cancelling match 3 succeeds, and the retry is approved. -/
theorem cancel_frees_one_slot_witness :
    approve_match_request fullS 2 0 = Except.error MatchingError.capacityExceeded
    ∧ (cancel_match fullS 3).1 = true
    ∧ ∃ (m2 : Match) (s2 : MatchingState),
        approve_match_request (cancel_match fullS 3).2 2 0 =
          Except.ok (some m2, s2) :=
  cancel_frees_one_slot fullS 0 1 3 2 slotOpportunity
    { id := 3, user_id := 10, opportunity_id := 0, created_at := 0
      status := MatchStatus.ACCEPTED, score := none }
    { id := 2, user_id := 11, opportunity_id := 0, requested_at := 0
      status := MatchStatus.PENDING, score := none }
    0 rfl rfl (by decide) rfl rfl rfl rfl rfl rfl (by decide)

end VolunteerMatching
